import Mathlib

/-!
Verification of the libnmea-rs message-format registry (`src/lib.rs`).

The Rust source declares the NMEA 2000 data model (`PgnCategory`, `FieldType`,
`Unit`, `Pgn`, `Field`) and the compiled-in registry `pgn_list()`.  Machine
integers (`u32`, `u16`, `i64`) are embedded as `Nat`/`Int`; the concrete list
never approaches their ranges, so no wraparound arises.  The `f64` field
`multiplier` is embedded as `ℚ`: the only value the source ever stores in it
is the `Default` literal `0.0`, which is exact in every representation.
-/

namespace Libnmea

/-- Rust `enum PgnCategory` (src/lib.rs lines 1-14). -/
inductive PgnCategory where
  | Mandatory
  | General
  | Proprietary
  | Power
  | Steering
  | Propulsion
  | Navigation
  | Ais
  | Environmental
  | Entertainment
  | Other
deriving DecidableEq

/-- Rust `enum FieldType` (src/lib.rs lines 16-28). -/
inductive FieldType where
  | Variable
  | NotUsed
  | Lookup
  | Integer
  | Decimal
  | Float
  | AsciiString
  | FixedString
  | PascalString
  | WideString
deriving DecidableEq

/-- Rust `enum Unit` (src/lib.rs lines 30-45). -/
inductive Unit where
  | Volts
  | Hertz
  | Seconds
  | Degrees
  | DegreesCelcius
  | Radians
  | RadiansPerSecond
  | Watts
  | WattHours
  | KilowattHours
  | VoltAmps
  | VoltAmpsReactive
deriving DecidableEq

/-- Rust `struct Field` (src/lib.rs lines 71-98): one bit-packed value in a PGN.
`start`/`size` are `u16` bit offsets/widths, `multiplier` an `f64` scale
factor (embedded as `ℚ`, see module comment), `offset` an `i64` excess-K bias. -/
structure Field where
  name : String
  description : Option String
  unit : Option Unit
  field_type : Option FieldType
  start : Nat
  size : Nat
  multiplier : ℚ
  offset : Int
deriving DecidableEq

/-- Rust `#[derive(Default)]` for `Field`: empty string, `None` options and
zero numerics (`f64::default() = 0.0`, `i64::default() = 0`). -/
def Field.default : Field :=
  { name := ""
    description := none
    unit := none
    field_type := none
    start := 0
    size := 0
    multiplier := 0
    offset := 0 }

/-- Rust `struct Pgn` (src/lib.rs lines 50-69): one message descriptor. -/
structure Pgn where
  name : String
  category : PgnCategory
  pgn : Nat
  is_known : Bool
  size : Nat
  repeating_fields : Nat
  fields : List Field
deriving DecidableEq

/-- First entry of `pgn_list()` (src/lib.rs lines 117-141): the "Unknown PGN"
fallback descriptor, pgn 0, with the two generic lookup fields. -/
def unknownPgn : Pgn :=
  { name := "Unknown PGN"
    category := PgnCategory.Mandatory
    pgn := 0
    is_known := false
    size := 8
    repeating_fields := 0
    fields :=
      [ { Field.default with
            name := "Manufacturer Code"
            field_type := some FieldType.Lookup
            start := 0
            size := 11 },
        -- Two bits reserved
        { Field.default with
            name := "Industry Code"
            field_type := some FieldType.Lookup
            start := 13
            size := 3 } ] }

/-- Second entry of `pgn_list()` (src/lib.rs lines 142-173): "ISO
Acknowledgement", pgn 59392, size 8 bytes. -/
def isoAcknowledgement : Pgn :=
  { name := "ISO Acknowledgement"
    category := PgnCategory.Mandatory
    pgn := 59392
    is_known := true
    size := 8
    repeating_fields := 0
    fields :=
      [ { Field.default with
            name := "Control"
            field_type := some FieldType.Lookup
            start := 0
            size := 8 },
        { Field.default with
            name := "Group Function"
            start := 8
            size := 8 },
        -- 24 bits reserved
        { Field.default with
            name := "PGN"
            description := some "Parameter group number of requested information"
            start := 40
            size := 24
            field_type := some FieldType.Integer } ] }

/-- Third entry of `pgn_list()` (src/lib.rs lines 174-191): "ISO Request",
pgn 59904, declared size 3 bytes, one Integer field at bit 40 width 24. -/
def isoRequest : Pgn :=
  { name := "ISO Request"
    category := PgnCategory.Mandatory
    pgn := 59904
    is_known := true
    size := 3
    repeating_fields := 0
    fields :=
      [ { Field.default with
            name := "PGN"
            description := some "Parameter group number of requested information"
            start := 40
            size := 24
            field_type := some FieldType.Integer } ] }

/-- Rust `pgn_list()` (src/lib.rs lines 115-195): the compiled-in registry,
in declaration order. -/
def pgn_list : List Pgn := [unknownPgn, isoAcknowledgement, isoRequest]

/-- Modelled from the spec: the source contains no lookup function, only the
registry data; spec §4.1 contracts `get(pgn)` to return the matching
descriptor, or the designated unknown-fallback descriptor (pgn = 0) when no
exact match exists, never failing. -/
def get (p : Nat) : Pgn :=
  match pgn_list.find? (fun d => d.pgn == p) with
  | some d => d
  | none => unknownPgn

/-- Outcome of decoding one field: either the raw extracted integer or a
distinct "field absent" marker (spec §4.2 step 1 and §7 TruncatedPayload). -/
inductive FieldOutcome where
  | absent
  | value (raw : Nat)
deriving DecidableEq

/-- A payload's length in bits: 8 bits per byte. -/
def payloadBits (payload : List Nat) : Nat := 8 * payload.length

/-- Modelled from the spec: the source contains no decode function; spec §4.2
step 2 specifies extraction of the raw unsigned integer over bits
`[start, start+size)`, LSB-first within each byte, little-endian byte order:
absolute bit `i` of the payload is bit `i % 8` of byte `i / 8`. -/
def extractBits (payload : List Nat) (start size : Nat) : Nat :=
  (List.range size).foldl
    (fun acc j => acc + ((payload.getD ((start + j) / 8) 0 >>> ((start + j) % 8)) % 2) <<< j)
    0

/-- Modelled from the spec: the source contains no decode function; spec §4.2
step 1 specifies that when `start + size` exceeds the payload's bit length the
field is absent — not an error — and otherwise the raw integer is extracted. -/
def decode_field (payload : List Nat) (f : Field) : FieldOutcome :=
  if payloadBits payload < f.start + f.size then FieldOutcome.absent
  else FieldOutcome.value (extractBits payload f.start f.size)

/-- Modelled from the spec: spec §7 requires a field-level absent outcome not
to abort decoding of the other fields, so a message decodes to one outcome
per declared field, each computed independently. -/
def decode_message (payload : List Nat) (d : Pgn) : List FieldOutcome :=
  d.fields.map (decode_field payload)

/-- C1: in the list returned by `pgn_list()`, the `pgn` fields of any two
distinct descriptors are distinct — `pgn` is a unique key over the registry. -/
theorem pgn_list_pgn_pairwise_distinct :
    List.Pairwise (fun a b : Pgn => a.pgn ≠ b.pgn) pgn_list := by
  decide

/-- C2 evaluation at the failing input: `pgn_list()` itself contains a
descriptor — "ISO Request", pgn 59904, with no repeating tail group — holding
a field whose `start + size` (40 + 24 = 64) exceeds the descriptor's declared
`size × 8` (3 × 8 = 24), so the declared field-bound invariant fails on the
compiled-in data. -/
theorem isoRequest_violates_field_bound :
    isoRequest ∈ pgn_list ∧ isoRequest.repeating_fields = 0 ∧
    ∃ f ∈ isoRequest.fields, isoRequest.size * 8 < f.start + f.size := by
  refine ⟨by decide, by decide, ?_⟩
  exact ⟨{ Field.default with
            name := "PGN"
            description := some "Parameter group number of requested information"
            start := 40
            size := 24
            field_type := some FieldType.Integer },
         by decide, by decide⟩

/-- C3: `pgn_list()` contains exactly one descriptor with `pgn = 0` (the
unknown-fallback descriptor); every field of that descriptor satisfies
`start + size ≤ 16`, hence decodes to a present value on any payload of at
least 2 bytes. -/
theorem unknown_descriptor_unique_and_extractable :
    (pgn_list.filter (fun d => d.pgn == 0)).length = 1 ∧
    unknownPgn ∈ pgn_list ∧ unknownPgn.pgn = 0 ∧
    (∀ f ∈ unknownPgn.fields, f.start + f.size ≤ 16) ∧
    (∀ payload : List Nat, 2 ≤ payload.length →
      ∀ f ∈ unknownPgn.fields, decode_field payload f ≠ FieldOutcome.absent) := by
  refine ⟨by decide, by decide, by decide, by decide, ?_⟩
  intro payload hlen f hf
  have hfs : f.start + f.size ≤ 16 := by
    simp only [unknownPgn, List.mem_cons, List.not_mem_nil, or_false] at hf
    rcases hf with h | h <;> subst h <;> decide
  have hbits : ¬ payloadBits payload < f.start + f.size := by
    simp only [payloadBits]
    omega
  simp [decode_field, hbits]

/-- C3 witness: the unknown descriptor's fields decode to present values on
the concrete 2-byte payload `[0, 0]`; instantiated at the "Manufacturer Code"
field. -/
theorem unknown_descriptor_unique_and_extractable_witness :
    (2 : Nat) ≤ [0, 0].length ∧
    decode_field [0, 0] { Field.default with
        name := "Manufacturer Code"
        field_type := some FieldType.Lookup
        start := 0
        size := 11 } ≠ FieldOutcome.absent :=
  ⟨by decide,
   unknown_descriptor_unique_and_extractable.2.2.2.2 [0, 0] (by decide) _ (by decide)⟩

/-- C4: `pgn_list()` contains the "ISO Request" descriptor: pgn 59904,
declared size 3 bytes, exactly one field, of type Integer with start 40 and
size 24 — the deliberate boundary fixture whose offset plus width (64)
exceeds the message's own declared bit length (24). -/
theorem isoRequest_boundary_fixture :
    isoRequest ∈ pgn_list ∧ isoRequest.pgn = 59904 ∧ isoRequest.size = 3 ∧
    isoRequest.fields.map (fun f => (f.field_type, f.start, f.size)) =
      [(some FieldType.Integer, 40, 24)] ∧
    isoRequest.size * 8 < 40 + 24 := by
  decide

/-- C5: `pgn_list()` contains the "ISO Acknowledgement" descriptor: pgn 59392,
declared size 8 bytes, fields in order "Control" (start 0, size 8), "Group
Function" (start 8, size 8), "PGN" (start 40, size 24), with bits 16–39
covered by no field. -/
theorem isoAcknowledgement_layout :
    isoAcknowledgement ∈ pgn_list ∧
    isoAcknowledgement.pgn = 59392 ∧ isoAcknowledgement.size = 8 ∧
    isoAcknowledgement.fields.map (fun f => (f.name, f.start, f.size)) =
      [("Control", 0, 8), ("Group Function", 8, 8), ("PGN", 40, 24)] ∧
    ∀ b : Nat, 16 ≤ b → b ≤ 39 → ∀ f ∈ isoAcknowledgement.fields,
      ¬ (f.start ≤ b ∧ b < f.start + f.size) := by
  refine ⟨by decide, by decide, by decide, by decide, ?_⟩
  intro b hb1 hb2 f hf
  simp only [isoAcknowledgement, List.mem_cons, List.not_mem_nil, or_false] at hf
  rcases hf with h | h | h <;> subst h <;> simp only [Field.default] <;> omega

/-- C5 witness: bit 20 lies in the reserved range and is not covered by the
"Control" field; instantiated from the layout theorem at `b = 20`. -/
theorem isoAcknowledgement_layout_witness :
    ¬ (({ Field.default with
            name := "Control"
            field_type := some FieldType.Lookup
            start := 0
            size := 8 } : Field).start ≤ 20 ∧
        20 < ({ Field.default with
            name := "Control"
            field_type := some FieldType.Lookup
            start := 0
            size := 8 } : Field).start +
          ({ Field.default with
            name := "Control"
            field_type := some FieldType.Lookup
            start := 0
            size := 8 } : Field).size) :=
  isoAcknowledgement_layout.2.2.2.2 20 (by decide) (by decide) _ (by decide)

/-- C6: registry lookup — when some descriptor in `pgn_list` has the queried
`pgn`, `get` returns a registered descriptor whose `pgn` equals the query key;
when no descriptor matches, `get` returns the designated unknown descriptor
(pgn = 0). The function is total, so it never fails for any input. -/
theorem registry_get_spec (p : Nat) :
    ((∃ d ∈ pgn_list, d.pgn = p) → (get p).pgn = p ∧ get p ∈ pgn_list) ∧
    ((∀ d ∈ pgn_list, d.pgn ≠ p) → get p = unknownPgn) := by
  constructor
  · rintro ⟨d, hd, hdp⟩
    cases hfind : pgn_list.find? (fun x => x.pgn == p) with
    | none =>
        exfalso
        rw [List.find?_eq_none] at hfind
        exact hfind d hd (by simp [hdp])
    | some d' =>
        have h1 := List.find?_some hfind
        have h2 := List.mem_of_find?_eq_some hfind
        simp only [beq_iff_eq] at h1
        simp only [get, hfind]
        exact ⟨h1, h2⟩
  · intro h
    have hfind : pgn_list.find? (fun x => x.pgn == p) = none := by
      rw [List.find?_eq_none]
      intro d hd
      simpa using h d hd
    simp [get, hfind]

/-- C6 witness: looking up the registered key 59392 yields a descriptor with
that `pgn`, and looking up the unregistered key 123456 yields the unknown
descriptor. -/
theorem registry_get_spec_witness :
    (get 59392).pgn = 59392 ∧ get 123456 = unknownPgn :=
  ⟨((registry_get_spec 59392).1 ⟨isoAcknowledgement, by decide, by decide⟩).1,
   (registry_get_spec 123456).2 (by decide)⟩

/-- C7: for every field descriptor and payload, if `start + size` exceeds the
payload's length in bits, decoding that field yields the distinct absent
outcome (never an error or out-of-range read: `decode_field` is total), and
message decoding is not aborted — every declared field of any descriptor
still gets its own independently computed outcome. -/
theorem decode_field_truncated_absent (payload : List Nat) (f : Field)
    (h : payloadBits payload < f.start + f.size) :
    decode_field payload f = FieldOutcome.absent ∧
    ∀ d : Pgn, (decode_message payload d).length = d.fields.length ∧
      ∀ i : Nat, (decode_message payload d)[i]? =
        (d.fields[i]?).map (decode_field payload) := by
  refine ⟨by simp [decode_field, h], ?_⟩
  intro d
  constructor
  · simp [decode_message]
  · intro i
    simp [decode_message]

/-- C7 witness: the ISO Request "PGN" field (start 40, size 24) on a concrete
3-byte payload (24 bits) decodes to absent, and decoding the ISO Request
message still yields one outcome per field. -/
theorem decode_field_truncated_absent_witness :
    payloadBits [1, 2, 3] <
      ({ Field.default with
          name := "PGN"
          description := some "Parameter group number of requested information"
          start := 40
          size := 24
          field_type := some FieldType.Integer } : Field).start +
      ({ Field.default with
          name := "PGN"
          description := some "Parameter group number of requested information"
          start := 40
          size := 24
          field_type := some FieldType.Integer } : Field).size ∧
    decode_field [1, 2, 3] { Field.default with
        name := "PGN"
        description := some "Parameter group number of requested information"
        start := 40
        size := 24
        field_type := some FieldType.Integer } = FieldOutcome.absent ∧
    (decode_message [1, 2, 3] isoRequest).length = isoRequest.fields.length := by
  refine ⟨by decide, ?_, ?_⟩
  · exact (decode_field_truncated_absent [1, 2, 3]
      { Field.default with
          name := "PGN"
          description := some "Parameter group number of requested information"
          start := 40
          size := 24
          field_type := some FieldType.Integer } (by decide)).1
  · exact ((decode_field_truncated_absent [1, 2, 3]
      { Field.default with
          name := "PGN"
          description := some "Parameter group number of requested information"
          start := 40
          size := 24
          field_type := some FieldType.Integer } (by decide)).2 isoRequest).1

/-- C8: every descriptor in `pgn_list()` has its `pgn` in the range
0 to 2^24 − 1 inclusive. -/
theorem pgn_list_pgn_in_range :
    ∀ d ∈ pgn_list, d.pgn ≤ 2 ^ 24 - 1 := by
  decide

/-- C8 witness: instantiated at the "ISO Request" descriptor. -/
theorem pgn_list_pgn_in_range_witness :
    isoRequest.pgn ≤ 2 ^ 24 - 1 :=
  pgn_list_pgn_in_range isoRequest (by decide)

/-- C9: every descriptor in `pgn_list()` has `repeating_fields = 0` — no
compiled-in definition uses the repeating-group mechanism. -/
theorem pgn_list_no_repeating_fields :
    ∀ d ∈ pgn_list, d.repeating_fields = 0 := by
  decide

/-- C9 witness: instantiated at the "ISO Acknowledgement" descriptor. -/
theorem pgn_list_no_repeating_fields_witness :
    isoAcknowledgement.repeating_fields = 0 :=
  pgn_list_no_repeating_fields isoAcknowledgement (by decide)

/-- C10: the `Field` default has `multiplier = 0` (not 1) and `offset = 0`,
and every field of every descriptor in `pgn_list()` keeps those default
scaling parameters — no compiled-in field carries a scale factor or
excess-K bias. -/
theorem pgn_list_fields_default_scaling :
    Field.default.multiplier = 0 ∧ Field.default.offset = 0 ∧
    ∀ d ∈ pgn_list, ∀ f ∈ d.fields, f.multiplier = 0 ∧ f.offset = 0 := by
  refine ⟨by decide, by decide, ?_⟩
  decide

/-- C10 witness: instantiated at the "Manufacturer Code" field of the unknown
descriptor. -/
theorem pgn_list_fields_default_scaling_witness :
    ({ Field.default with
        name := "Manufacturer Code"
        field_type := some FieldType.Lookup
        start := 0
        size := 11 } : Field).multiplier = 0 ∧
    ({ Field.default with
        name := "Manufacturer Code"
        field_type := some FieldType.Lookup
        start := 0
        size := 11 } : Field).offset = 0 :=
  pgn_list_fields_default_scaling.2.2 unknownPgn (by decide) _ (by decide)

end Libnmea
